import Mathlib

/-!
Verification of the daisy DAC-review engine (src/daisy) against its
natural-language specification.

Shallow embedding conventions:
* Python `str` values are embedded as `List Char` (`Str`); string literals
  are converted with `lit`.
* Python `None`-able strings are `Option Str`; pandas cells are `Option Str`
  with `none` standing for NaN/null.
* Statuses and severities, strings in the source, are embedded as inductive
  types since the engine only ever produces the listed constants.
* Machine integers are `Nat`/`Int`; the single float parameter
  (`ratio_tolerance`) is embedded exactly as a rational.
-/

namespace Daisy

abbrev Str := List Char

def lit (s : String) : Str := s.toList

/-- Python `str.strip()` whitespace class (ASCII part). -/
def pyIsSpace (c : Char) : Bool :=
  c = ' ' || c = '\t' || c = '\n' || c = '\x0d' || c = '\x0b' || c = '\x0c'

/-- Drop trailing characters satisfying `pyIsSpace` (Python `rstrip`). -/
def dropTrailWS : Str → Str
  | [] => []
  | c :: cs =>
    let r := dropTrailWS cs
    if r.isEmpty then (if pyIsSpace c then [] else [c]) else c :: r

/-- Python `s.strip()`: drop leading and trailing whitespace. -/
def pyStrip (s : Str) : Str := dropTrailWS (s.dropWhile pyIsSpace)

/-- Python `s.rstrip()` as used by `PdfDoc.page_lines`. -/
def pyRStrip (s : Str) : Str := dropTrailWS s

/-- Python `s.lower()` (ASCII case folding; inputs in scope are ASCII). -/
def pyLower (s : Str) : Str := s.map Char.toLower

/-- Python substring test `sub in hay`. -/
def containsSub (sub : Str) : Str → Bool
  | [] => sub.isEmpty
  | h :: t => sub.isPrefixOf (h :: t) || containsSub sub t

/-- Word characters of the regex `\b` boundary (`[A-Za-z0-9_]`; ASCII part of `\w`). -/
def isPyWordChar (c : Char) : Bool := c.isAlphanum || c = '_'

/-- An occurrence of `w` starts here and has a word boundary at its right end. -/
def boundaryMatch (w t : Str) : Bool :=
  w.isPrefixOf t &&
    (match t.drop w.length with
     | [] => true
     | c :: _ => !isPyWordChar c)

/-- Scan `t` for a word-boundary occurrence of `w` (regex `\bw\b` for a word `w`);
`atB` records whether the previous character was a non-word character/start. -/
def findWord (w : Str) : Str → Bool → Bool
  | [], _ => false
  | c :: t, atB => (atB && boundaryMatch w (c :: t)) || findWord w t (!isPyWordChar c)

/-- Python `re.search(r"\b" + w + r"\b", t) is not None` for a word-only token `w`. -/
def hasWordToken (t w : Str) : Bool := findWord w t true

-- ---------------------------------------------------------------------------
-- src/daisy/util.py : extract_yes_no
-- ---------------------------------------------------------------------------

/-- `util.extract_yes_no`: normalize yes/no from arbitrary text.
Source (util.py:47-60): falsy input → None; else strip+lower, then
`re.search(r"\byes\b")` → "yes", `re.search(r"\bno\b")` → "no", else None. -/
def extract_yes_no (text : Option Str) : Option Str :=
  match text with
  | none => none
  | some s =>
    if s = [] then none
    else
      let t := pyLower (pyStrip s)
      if hasWordToken t (lit "yes") then some (lit "yes")
      else if hasWordToken t (lit "no") then some (lit "no")
      else none

-- ---------------------------------------------------------------------------
-- Status / severity / result model (models.py; statuses are the string
-- constants produced by agent.py)
-- ---------------------------------------------------------------------------

inductive Status where
  | MET
  | PARTIALLY_MET
  | NOT_MET
  | SKIPPED
  | UNKNOWN
deriving DecidableEq

inductive Severity where
  | critical
  | major
  | minor
  | info
deriving DecidableEq

/-- `models.CheckResult` (the `evidence` bag is opaque to aggregation and
is omitted from the embedding). -/
structure CheckResult where
  check_id : String
  name : String
  status : Status
  severity : Severity
  message : String := ""
deriving DecidableEq

/-- `models.SectionResult`. -/
structure SectionResult where
  section_id : String
  name : String
  status : Status
  checks : List CheckResult
deriving DecidableEq

-- ---------------------------------------------------------------------------
-- agent.py : _aggregate_section / _aggregate_overall
-- ---------------------------------------------------------------------------

/-- `agent._aggregate_section` (agent.py:952-972). -/
def _aggregate_section (section_id name : String) (checks : List CheckResult) :
    SectionResult :=
  let crit_not := checks.any fun c =>
    decide (c.status = Status.NOT_MET ∧ c.severity = Severity.critical)
  let any_not := checks.any fun c => decide (c.status = Status.NOT_MET)
  let any_met := checks.any fun c => decide (c.status = Status.MET)
  let any_unknown := checks.any fun c => decide (c.status = Status.UNKNOWN)
  let any_skipped := checks.any fun c => decide (c.status = Status.SKIPPED)
  let status :=
    if crit_not then Status.NOT_MET
    else if any_not && any_met then Status.PARTIALLY_MET
    else if any_not && !any_met then Status.NOT_MET
    else if any_met && (any_skipped || any_unknown) then Status.PARTIALLY_MET
    else if any_met then Status.MET
    else Status.UNKNOWN
  { section_id := section_id, name := name, status := status, checks := checks }

/-- Claim C1's section-status rules, transcribed from the spec's words
(spec §4.6, rules 1-6; rule 5 "at least one MET and nothing else" is read
literally as: some check is MET and every check is MET). -/
def sectionStatusClaim (checks : List CheckResult) : Status :=
  if checks.any (fun c =>
      decide (c.status = Status.NOT_MET ∧ c.severity = Severity.critical)) then
    Status.NOT_MET
  else if checks.any (fun c => decide (c.status = Status.NOT_MET)) &&
          checks.any (fun c => decide (c.status = Status.MET)) then
    Status.PARTIALLY_MET
  else if checks.any (fun c => decide (c.status = Status.NOT_MET)) &&
          !(checks.any (fun c => decide (c.status = Status.MET))) then
    Status.NOT_MET
  else if checks.any (fun c => decide (c.status = Status.MET)) &&
          (checks.any (fun c => decide (c.status = Status.SKIPPED)) ||
           checks.any (fun c => decide (c.status = Status.UNKNOWN))) then
    Status.PARTIALLY_MET
  else if checks.any (fun c => decide (c.status = Status.MET)) &&
          checks.all (fun c => decide (c.status = Status.MET)) then
    Status.MET
  else
    Status.UNKNOWN

/-- `agent._aggregate_overall` (agent.py:975-984). -/
def _aggregate_overall (sections : List SectionResult) : Status :=
  if sections.any (fun s => decide (s.status = Status.NOT_MET)) then
    if sections.all (fun s => decide (s.status = Status.NOT_MET)) then Status.NOT_MET
    else Status.PARTIALLY_MET
  else if sections.any (fun s => decide (s.status = Status.PARTIALLY_MET)) then
    Status.PARTIALLY_MET
  else if sections.all (fun s => decide (s.status = Status.MET)) then Status.MET
  else Status.UNKNOWN

/-- Claim C2's overall-status rules, transcribed from the spec's words
(spec §4.6 Section→Overall, rules 1-5, evaluated in order; "all sections
NOT_MET" is read as a universal quantification, vacuously true on `[]`). -/
def overallStatusClaim (sections : List SectionResult) : Status :=
  if sections.any (fun s => decide (s.status = Status.NOT_MET)) &&
     !(sections.all (fun s => decide (s.status = Status.NOT_MET))) then
    Status.PARTIALLY_MET
  else if sections.all (fun s => decide (s.status = Status.NOT_MET)) then
    Status.NOT_MET
  else if sections.any (fun s => decide (s.status = Status.PARTIALLY_MET)) then
    Status.PARTIALLY_MET
  else if sections.all (fun s => decide (s.status = Status.MET)) then Status.MET
  else Status.UNKNOWN

/-- Claim C2 amended: the rule "all sections NOT_MET → NOT_MET" additionally
requires the list of sections to be non-empty (on the empty list the code
falls through to the all-MET rule and returns MET). -/
def overallStatusAmended (sections : List SectionResult) : Status :=
  if sections.any (fun s => decide (s.status = Status.NOT_MET)) &&
     !(sections.all (fun s => decide (s.status = Status.NOT_MET))) then
    Status.PARTIALLY_MET
  else if !sections.isEmpty &&
          sections.all (fun s => decide (s.status = Status.NOT_MET)) then
    Status.NOT_MET
  else if sections.any (fun s => decide (s.status = Status.PARTIALLY_MET)) then
    Status.PARTIALLY_MET
  else if sections.all (fun s => decide (s.status = Status.MET)) then Status.MET
  else Status.UNKNOWN

-- ---------------------------------------------------------------------------
-- agent.py : threshold checks (C3)
-- ---------------------------------------------------------------------------

/-- Python `int()` on a rational value: truncation toward zero. -/
def pyInt (q : ℚ) : ℤ := if 0 ≤ q then ⌊q⌋ else ⌈q⌉

/-- `excel_checks.ExcelCheckFinding`. -/
structure ExcelCheckFinding where
  total_rows : Nat
  failing_rows : Nat
  sample_rows : List (List (Str × Option Str))
deriving DecidableEq

/-- `agent._excel_finding_check_threshold` (agent.py:881-914).
The `evidence` bag is omitted; the float `ratio_tol` is embedded as an exact
rational, so `int(total * float(ratio_tol))` becomes `pyInt (total * ratio_tol)`. -/
def _excel_finding_check_threshold (check_id name : String)
    (finding : ExcelCheckFinding) (severity : Severity) (mvp : Bool)
    (ratio_tol : ℚ) (abs_tol : ℤ) : CheckResult :=
  let total : ℤ := finding.total_rows
  let failing : ℤ := finding.failing_rows
  if failing = 0 then
    { check_id := check_id, name := name, status := Status.MET, severity := severity }
  else
    let tol : ℤ := max abs_tol (pyInt ((total : ℚ) * ratio_tol))
    if mvp && decide (failing ≤ tol) then
      { check_id := check_id, name := name, status := Status.MET, severity := severity,
        message := "MVP warning: " ++ toString failing ++ " of " ++ toString total ++
                   " rows failed (tolerance=" ++ toString tol ++ ")." }
    else
      { check_id := check_id, name := name, status := Status.NOT_MET, severity := severity,
        message := toString failing ++ " of " ++ toString total ++ " rows failed." }

/-- `agent._simple_threshold_check` (agent.py:917-949); same thresholding logic
over a bare (failing_count, total) pair. -/
def _simple_threshold_check (check_id name : String) (failing_count total : Nat)
    (severity : Severity) (mvp : Bool) (ratio_tol : ℚ) (abs_tol : ℤ) : CheckResult :=
  let totalZ : ℤ := total
  let failingZ : ℤ := failing_count
  if failingZ = 0 then
    { check_id := check_id, name := name, status := Status.MET, severity := severity }
  else
    let tol : ℤ := max abs_tol (pyInt ((totalZ : ℚ) * ratio_tol))
    if mvp && decide (failingZ ≤ tol) then
      { check_id := check_id, name := name, status := Status.MET, severity := severity,
        message := "MVP warning: " ++ toString failingZ ++ " of " ++ toString totalZ ++
                   " rows failed (tolerance=" ++ toString tol ++ ")." }
    else
      { check_id := check_id, name := name, status := Status.NOT_MET, severity := severity,
        message := toString failingZ ++ " of " ++ toString totalZ ++ " rows failed." }

-- ---------------------------------------------------------------------------
-- excel_checks.py : tables, required columns, meaningful descriptions
-- ---------------------------------------------------------------------------

/-- A pandas cell: `none` stands for NaN/None, `some s` for the string form
of the value. -/
abbrev Cell := Option Str

/-- A table row: association of column name to cell. -/
abbrev Row := List (Str × Cell)

/-- A pandas DataFrame read by `read_excel_first_sheet`: named columns and rows. -/
structure DataFrame where
  cols : List Str
  rows : List Row

/-- Cell access `df[c]` for one row (a column absent from the row is NaN). -/
def dfGet (r : Row) (c : Str) : Cell := (r.lookup c).join

/-- `excel_checks.non_empty_series`, per cell:
`fillna("").astype(str).str.strip().ne("")`. -/
def non_empty_cell (c : Cell) : Bool :=
  match c with
  | none => false
  | some s => !(pyStrip s).isEmpty

/-- Claim C4's failure condition for one cell, from the spec's words: the
cell's trimmed string form is empty, with null/NaN/blank all counting as
empty. -/
def cell_empty_spec (c : Cell) : Bool :=
  match c with
  | none => true
  | some s => (pyStrip s).isEmpty

/-- The placeholder tokens of `excel_checks.meaningful_description`. -/
def placeholder_tokens : List Str := [lit "...", lit "tbd", lit "n/a", lit "na"]

/-- `excel_checks.meaningful_description` (excel_checks.py:19-31). -/
def meaningful_description (desc display_name : Str) : Bool :=
  let d := pyStrip desc
  if d.isEmpty then false
  else if d.length < 8 then false
  else if !display_name.isEmpty &&
          decide (pyLower (pyStrip d) = pyLower (pyStrip display_name)) then false
  else if decide (pyStrip d ∈ placeholder_tokens) then false
  else true

/-- `meaningful_description` with the placeholder-token branch removed
(used by claim C10 to show that branch is never the deciding condition). -/
def meaningful_description_no_placeholder (desc display_name : Str) : Bool :=
  let d := pyStrip desc
  if d.isEmpty then false
  else if d.length < 8 then false
  else if !display_name.isEmpty &&
          decide (pyLower (pyStrip d) = pyLower (pyStrip display_name)) then false
  else true

/-- The single-quote character, used for the Python `repr` of a string. -/
def sq : Char := Char.ofNat 39

/-- Python `repr` of one string inside a list display (single-quoted; Python
switches to double quotes only when the string itself contains a quote). -/
def quoteItem (s : Str) : Str := sq :: (s ++ [sq])

/-- Join with `", "` (Python list display separator). -/
def commaJoin : List Str → Str
  | [] => []
  | [x] => x
  | x :: y :: ys => x ++ lit ", " ++ commaJoin (y :: ys)

/-- Python `f"{missing}"` for a list of strings. -/
def pyReprStrList (l : List Str) : Str :=
  lit "[" ++ commaJoin (l.map quoteItem) ++ lit "]"

/-- `dict.fromkeys`-style de-duplication preserving first occurrences. -/
def dedupFirst : List Str → List Str :=
  go []
where
  go : List Str → List Str → List Str
    | _, [] => []
    | seen, x :: xs =>
      if seen.contains x then go seen xs else x :: go (x :: seen) xs

/-- `excel_checks.check_required_columns_non_empty` (excel_checks.py:39-67). -/
def check_required_columns_non_empty (df : DataFrame) (required_cols : List Str)
    (id_col : Option Str) (max_samples : Nat) : ExcelCheckFinding :=
  let missing := required_cols.filter (fun c => !(df.cols.contains c))
  if !missing.isEmpty then
    { total_rows := df.rows.length,
      failing_rows := df.rows.length,
      sample_rows := [[(lit "error",
        some (lit "Missing columns: " ++ pyReprStrList missing))]] }
  else
    let mask : Row → Bool := fun r => required_cols.all (fun c => non_empty_cell (dfGet r c))
    let failing := df.rows.filter (fun r => !mask r)
    let cols0 := (match id_col with | some i => [i] | none => []) ++ required_cols
    let cols := (dedupFirst cols0).filter (fun c => df.cols.contains c)
    let samples := (failing.take max_samples).map (fun r => cols.map (fun c => (c, dfGet r c)))
    { total_rows := df.rows.length,
      failing_rows := failing.length,
      sample_rows := samples }

-- ---------------------------------------------------------------------------
-- pdf_reader.py / agent.py : document views and the OCR overlay (C6)
-- ---------------------------------------------------------------------------

/-- Python `str.splitlines()` restricted to the `\n`, `\r`, `\r\n` terminators
(the inputs in scope contain no further Unicode line terminators). -/
def splitlinesAux : Str → Str → List Str
  | acc, [] => [acc.reverse]
  | acc, '\n' :: t =>
    acc.reverse :: (if t.isEmpty then [] else splitlinesAux [] t)
  | acc, '\x0d' :: '\n' :: t =>
    acc.reverse :: (if t.isEmpty then [] else splitlinesAux [] t)
  | acc, '\x0d' :: t =>
    acc.reverse :: (if t.isEmpty then [] else splitlinesAux [] t)
  | acc, c :: t => splitlinesAux (c :: acc) t

/-- Python `s.splitlines()`. -/
def pySplitlines (s : Str) : List Str :=
  if s.isEmpty then [] else splitlinesAux [] s

/-- `pdf_reader.PdfDoc`, abstracted over the PDF library: the per-page
extracted text (`page_text`). -/
structure PdfDoc where
  pages : List Str

/-- `PdfDoc.page_text` (out-of-range pages read as empty). -/
def page_text (d : PdfDoc) (i : Nat) : Str := d.pages.getD i []

/-- `PdfDoc.page_lines`: `[l.rstrip() for l in page_text(i).splitlines()]`. -/
def page_lines (d : PdfDoc) (i : Nat) : List Str :=
  (pySplitlines (page_text d i)).map pyRStrip

/-- Python `"\n".join`. -/
def joinNL : List Str → Str
  | [] => []
  | [x] => x
  | x :: y :: ys => x ++ '\n' :: joinNL (y :: ys)

/-- `agent._PdfOverlayView.page_lines` (agent.py:37-45); the `_ocr_pages`
dict is an association list from page index to OCR text. -/
def overlay_page_lines (base : PdfDoc) (ocr_pages : List (Nat × Str)) (i : Nat) :
    List Str :=
  let base_lines := page_lines base i
  let base_text := pyStrip (joinNL base_lines)
  let ocr_text := pyStrip ((ocr_pages.lookup i).getD [])
  if base_text.isEmpty && !ocr_text.isEmpty then
    (pySplitlines ocr_text).filter (fun ln => !(pyStrip ln).isEmpty)
  else base_lines

-- ---------------------------------------------------------------------------
-- util.py : find_first_value_after_labels (C7)
-- ---------------------------------------------------------------------------

/-- `re.split(r":\s*", s, maxsplit=1)`: the part after the first colon with
the following whitespace run removed; `none` when `s` has no colon. -/
def afterColon : Str → Option Str
  | [] => none
  | c :: t => if c = ':' then some (t.dropWhile pyIsSpace) else afterColon t

/-- `any(lbl in s_l for lbl in labels_l)`. -/
def labelsMatch (labels_l : List Str) (s_l : Str) : Bool :=
  labels_l.any (fun lbl => containsSub lbl s_l)

/-- The forward window of `find_first_value_after_labels`
(`for j in range(i + 1, min(i + 8, len(lines)))`, applied to the ≤ 7
following lines): first non-blank line that does not contain a label. -/
def window7 (labels_l : List Str) : List Str → Option Str
  | [] => none
  | raw :: rest =>
    let v := pyStrip raw
    if v.isEmpty then window7 labels_l rest
    else if labelsMatch labels_l (pyLower v) then window7 labels_l rest
    else some v

/-- The main loop of `find_first_value_after_labels` (util.py:22-44), written
structurally: advancing the index `i` is recursion on the suffix, and the
window `lines[i+1 : min(i+8, len(lines))]` is `rest.take 7`. -/
def ffvalGo (labels_l : List Str) : List Str → Option Str
  | [] => none
  | raw :: rest =>
    let s := pyStrip raw
    if s.isEmpty then ffvalGo labels_l rest
    else if labelsMatch labels_l (pyLower s) then
      match afterColon s with
      | some r =>
        if !(pyStrip r).isEmpty then some (pyStrip r)
        else
          match window7 labels_l (rest.take 7) with
          | some v => some v
          | none => ffvalGo labels_l rest
      | none =>
        match window7 labels_l (rest.take 7) with
        | some v => some v
        | none => ffvalGo labels_l rest
    else ffvalGo labels_l rest

/-- `labels_l = [l.lower() for l in labels if l]` (util.py:21). -/
def labels_norm (labels : List Str) : List Str :=
  (labels.filter (fun l => !l.isEmpty)).map pyLower

/-- `util.find_first_value_after_labels` (util.py:13-44). -/
def find_first_value_after_labels (lines labels : List Str) : Option Str :=
  if lines.isEmpty then none
  else ffvalGo (labels_norm labels) lines

/-- Claim C7's same-line rule, from the spec's words: the remainder of the
line after (the first case-insensitive occurrence of) the label. -/
def remainder_after_label (lbl : Str) : Str → Option Str
  | [] => none
  | c :: t =>
    if (pyLower lbl).isPrefixOf (pyLower (c :: t)) then some ((c :: t).drop lbl.length)
    else remainder_after_label lbl t

-- ---------------------------------------------------------------------------
-- agent.py : _normalize_text and _extract_cms_product_id (C7 example)
-- ---------------------------------------------------------------------------

/-- `s.replace("\r\n", "\n").replace("\r", "\n")`. -/
def normCR : Str → Str
  | [] => []
  | '\x0d' :: '\n' :: t => '\n' :: normCR t
  | '\x0d' :: t => '\n' :: normCR t
  | c :: t => c :: normCR t

/-- `re.sub(r"[ \t]+", " ", s)`: the flag records an ongoing space/tab run. -/
def collapseSpacesGo : Bool → Str → Str
  | _, [] => []
  | inRun, c :: t =>
    if c = ' ' || c = '\t' then
      if inRun then collapseSpacesGo true t else ' ' :: collapseSpacesGo true t
    else c :: collapseSpacesGo false t

/-- `agent._normalize_text` (agent.py:1027-1030). -/
def _normalize_text (s : Str) : Str := collapseSpacesGo false (normCR s)

/-- Parse a case-insensitive literal, returning the rest of the input. -/
def parseCI : Str → Str → Option Str
  | [], t => some t
  | _ :: _, [] => none
  | c :: cs, d :: ds => if c.toLower = d.toLower then parseCI cs ds else none

/-- One attempted match of `(?i)\bCMS\s*Product\s*ID\b[^0-9]{0,40}(\d{4,})`
at the current position (the left word boundary is checked by the caller);
returns the captured digit group. `[^0-9]{0,40}` cannot consume digits, so
backtracking reduces to: the maximal non-digit run after `ID\b` has length
≤ 40 and is followed by ≥ 4 digits. -/
def cmsMatchAt (t : Str) : Option Str :=
  (parseCI (lit "cms") t).bind fun r1 =>
  (parseCI (lit "product") (r1.dropWhile pyIsSpace)).bind fun r3 =>
  (parseCI (lit "id") (r3.dropWhile pyIsSpace)).bind fun r5 =>
  let boundOk : Bool := match r5 with | [] => true | c :: _ => !isPyWordChar c
  if !boundOk then none
  else
  let nonDigits := r5.takeWhile (fun c => !c.isDigit)
  if nonDigits.length ≤ 40 then
    let ds := (r5.drop nonDigits.length).takeWhile Char.isDigit
    if 4 ≤ ds.length then some ds else none
  else none

/-- `re.search` driver: try each position left to right; `atB` records whether
the previous character was a non-word character (or the start). -/
def cmsSearch : Str → Bool → Option Str
  | [], _ => none
  | c :: t, atB =>
    match (if atB then cmsMatchAt (c :: t) else none) with
    | some ds => some ds
    | none => cmsSearch t (!isPyWordChar c)

/-- `agent._extract_cms_product_id` (agent.py:1033-1038). -/
def _extract_cms_product_id (text : Str) : Option Str :=
  if text.isEmpty then none
  else cmsSearch (_normalize_text text) true

-- ---------------------------------------------------------------------------
-- ocr.py : ocr_pdf_pages_best_effort (C8), exceptions as explicit results
-- ---------------------------------------------------------------------------

/-- The effectful collaborators of `ocr_pdf_pages_best_effort`, with every
exception-raising step restated as an explicit result:
`cacheRead` is the cache file (`none`: absent; `Except.error`: read raised),
`depsError` the outcome of importing pytesseract/PIL, `openDoc` the outcome
of `fitz.open` (page count on success), `pageOcr` the per-page
render+recognize step. -/
structure OcrEnv where
  cacheRead : Option (Except Str (List (Nat × Str)))
  depsError : Option Str
  openDoc : Except Str Nat
  pageOcr : Nat → Except Str Str

/-- The metadata fields of `ocr_pdf_pages_best_effort` used by claim C8. -/
structure OcrMeta where
  ocr_available : Bool
  ocr_attempted : Bool
  ocr_cache_hit : Bool
  ocr_succeeded : Bool
  ocr_text_chars : Nat
  ocr_pages : Nat
  error : Option Str

/-- `sum(len(v or "") for v in ocr_pages.values())`. -/
def totalChars (m : List (Nat × Str)) : Nat := (m.map (fun p => p.2.length)).sum

/-- The `target_pages` local of `ocr_pdf_pages_best_effort` (ocr.py:142-145):
explicit pages bounded to the document, else the first `max_pages` pages. -/
def ocrTargetPages (pages : Option (List Nat)) (max_pages total_pages : Nat) :
    List Nat :=
  match pages with
  | some ps =>
    if !ps.isEmpty then ps.filter (fun p => p < total_pages)
    else List.range (min max_pages total_pages)
  | none => List.range (min max_pages total_pages)

/-- The per-page loop body (ocr.py:153-161): a raised render/recognize step
is caught and yields empty text for that page. -/
def ocrPageEntry (env : OcrEnv) (i : Nat) : Nat × Str :=
  (i, match env.pageOcr i with | Except.ok t => t | Except.error _ => [])

/-- `ocr.ocr_pdf_pages_best_effort` (ocr.py:68-179). A failed cache read
falls through to the normal path; a missing dependency or a failed
`fitz.open` returns an empty map with an error string; a per-page failure is
caught by the inner `try` and yields empty text for that page (no error
string); the cache write (always swallowed, no observable effect on the
returned value) is not modelled. -/
def ocr_pdf_pages_best_effort (env : OcrEnv) (max_pages : Nat)
    (pages : Option (List Nat)) : (List (Nat × Str)) × OcrMeta :=
  match env.cacheRead with
  | some (Except.ok m) =>
    (m, { ocr_available := true, ocr_attempted := true, ocr_cache_hit := true,
          ocr_succeeded := decide (0 < totalChars m),
          ocr_text_chars := totalChars m, ocr_pages := m.length, error := none })
  | _ =>
    match env.depsError with
    | some e =>
      ([], { ocr_available := false, ocr_attempted := true, ocr_cache_hit := false,
             ocr_succeeded := false, ocr_text_chars := 0, ocr_pages := 0,
             error := some (lit "ocr_unavailable: " ++ e) })
    | none =>
      match env.openDoc with
      | Except.error e =>
        ([], { ocr_available := true, ocr_attempted := true, ocr_cache_hit := false,
               ocr_succeeded := false, ocr_text_chars := 0, ocr_pages := 0,
               error := some (lit "ocr_error: " ++ e) })
      | Except.ok total_pages =>
        let target := ocrTargetPages pages max_pages total_pages
        let m := target.map (ocrPageEntry env)
        (m, { ocr_available := true, ocr_attempted := true, ocr_cache_hit := false,
              ocr_succeeded := decide (0 < totalChars m),
              ocr_text_chars := totalChars m, ocr_pages := target.length,
              error := none })

/-- The caller's use of the OCR result in `agent.validate` (agent.py:198-199):
the overlay view is installed only when the returned page map is non-empty
and carries text; otherwise the run continues on the native text. -/
def validate_doc_after_ocr (base : PdfDoc) (ocr_map : List (Nat × Str)) (i : Nat) :
    List Str :=
  if !ocr_map.isEmpty && decide (0 < totalChars ocr_map) then
    overlay_page_lines base ocr_map i
  else page_lines base i

-- ---------------------------------------------------------------------------
-- Concrete instances used by counterexamples
-- ---------------------------------------------------------------------------

/-- An OCR environment where the cache is cold, the dependencies import, the
document opens with one page, and rendering/recognition raises on every page. -/
def ocrEnvPageFail : OcrEnv :=
  { cacheRead := none, depsError := none, openDoc := Except.ok 1,
    pageOcr := fun _ => Except.error (lit "render failed") }

/-- An OCR environment where importing the OCR dependencies raises. -/
def ocrEnvNoDeps : OcrEnv :=
  { cacheRead := none, depsError := some (lit "ModuleNotFoundError"),
    openDoc := Except.ok 0, pageOcr := fun _ => Except.ok [] }

/-- `pre` is a prefix of `s`, stated over the underlying character data. -/
def strStartsWith (s pre : String) : Bool := pre.data.isPrefixOf s.data

-- ===========================================================================
-- Helper lemmas
-- ===========================================================================

theorem dropWhile_dropWhile (p : Char → Bool) (l : Str) :
    (l.dropWhile p).dropWhile p = l.dropWhile p := by
  induction l with
  | nil => rfl
  | cons c cs ih =>
    by_cases h : p c
    · simp [List.dropWhile, h, ih]
    · simp [List.dropWhile, h]

theorem head_dropWhile_not (p : Char → Bool) (l : Str) (c : Char)
    (h : (l.dropWhile p).head? = some c) : p c = false := by
  induction l with
  | nil => simp at h
  | cons a t ih =>
    by_cases ha : p a
    · exact ih (by simpa [List.dropWhile, ha] using h)
    · simp [List.dropWhile, ha] at h
      simpa [← h] using ha

theorem dropWhile_of_head_false (p : Char → Bool) (l : Str)
    (h : ∀ c, l.head? = some c → p c = false) : l.dropWhile p = l := by
  cases l with
  | nil => rfl
  | cons a t => simp [List.dropWhile, h a rfl]

theorem dropTrailWS_nil : dropTrailWS [] = [] := rfl

theorem dropTrailWS_cons (c : Char) (cs : Str) :
    dropTrailWS (c :: cs) =
      if (dropTrailWS cs).isEmpty then (if pyIsSpace c then [] else [c])
      else c :: dropTrailWS cs := rfl

theorem dropTrailWS_idem (l : Str) : dropTrailWS (dropTrailWS l) = dropTrailWS l := by
  induction l with
  | nil => rfl
  | cons c cs ih =>
    rw [dropTrailWS_cons]
    cases h : dropTrailWS cs with
    | nil =>
      by_cases hc : pyIsSpace c
      · simp [hc, dropTrailWS_nil]
      · simp [hc, dropTrailWS_cons, dropTrailWS_nil]
    | cons r rs =>
      have hr : dropTrailWS (r :: rs) = r :: rs := by rw [← h, ih, h]
      simp [dropTrailWS_cons, hr]

theorem head_dropTrailWS (l : Str) :
    dropTrailWS l = [] ∨ (dropTrailWS l).head? = l.head? := by
  cases l with
  | nil => exact Or.inl rfl
  | cons c cs =>
    rw [dropTrailWS_cons]
    cases h : dropTrailWS cs with
    | nil =>
      by_cases hc : pyIsSpace c
      · exact Or.inl (by simp [hc])
      · exact Or.inr (by simp [hc])
    | cons r rs => exact Or.inr (by simp)

theorem pyStrip_idem (l : Str) : pyStrip (pyStrip l) = pyStrip l := by
  unfold pyStrip
  rcases head_dropTrailWS (l.dropWhile pyIsSpace) with h | h
  · rw [h]; rfl
  · have hhead : ∀ c, (dropTrailWS (l.dropWhile pyIsSpace)).head? = some c →
        pyIsSpace c = false := by
      intro c hc
      rw [h] at hc
      exact head_dropWhile_not pyIsSpace l c hc
    rw [dropWhile_of_head_false pyIsSpace _ hhead, dropTrailWS_idem]

theorem any_not_eq_not_all {α : Type} (l : List α) (p : α → Bool) :
    l.any (fun a => !p a) = !l.all p := by
  induction l with
  | nil => rfl
  | cons a t ih => by_cases h : p a <;> simp [h, ih]

-- ===========================================================================
-- Claim theorems
-- ===========================================================================

theorem section_chain_eq (A B C D E F : Bool)
    (hF : B = false → C = true → D = false → E = false → F = true) :
    (if A then Status.NOT_MET
     else if B && C then Status.PARTIALLY_MET
     else if B && !C then Status.NOT_MET
     else if C && (D || E) then Status.PARTIALLY_MET
     else if C then Status.MET
     else Status.UNKNOWN) =
    (if A then Status.NOT_MET
     else if B && C then Status.PARTIALLY_MET
     else if B && !C then Status.NOT_MET
     else if C && (D || E) then Status.PARTIALLY_MET
     else if C && F then Status.MET
     else Status.UNKNOWN) := by
  cases A <;> cases B <;> cases C <;> cases D <;> cases E <;> cases F <;> simp_all

/-- C1: for every list of checks (with check statuses drawn from the values
the core produces, i.e. never PARTIALLY_MET, as the claim's own rule 6
presumes), the section status computed by `_aggregate_section` follows the
claim's six-rule precedence order, transcribed in `sectionStatusClaim`. -/
theorem aggregate_section_matches_claim (sid nm : String) (checks : List CheckResult)
    (hnp : ∀ c ∈ checks, c.status ≠ Status.PARTIALLY_MET) :
    (_aggregate_section sid nm checks).status = sectionStatusClaim checks := by
  have hF : checks.any (fun c => decide (c.status = Status.NOT_MET)) = false →
      checks.any (fun c => decide (c.status = Status.MET)) = true →
      checks.any (fun c => decide (c.status = Status.SKIPPED)) = false →
      checks.any (fun c => decide (c.status = Status.UNKNOWN)) = false →
      checks.all (fun c => decide (c.status = Status.MET)) = true := by
    intro hB _ hD hE
    rw [List.all_eq_true]
    intro c hc
    rw [List.any_eq_false] at hB hD hE
    have hb := hB c hc
    have hd := hD c hc
    have he := hE c hc
    have hp := hnp c hc
    cases hs : c.status <;> simp_all
  exact section_chain_eq _ _ _ _ _ _ hF

/-- C1 witness: the spec's worked example — one MET critical check next to
one SKIPPED major check aggregates to PARTIALLY_MET, and replacing the
SKIPPED check by a NOT_MET critical one yields NOT_MET despite the MET. -/
theorem aggregate_section_matches_claim_witness :
    (_aggregate_section "4.1" "Entitlements"
        [{ check_id := "a", name := "a", status := Status.MET, severity := Severity.critical },
         { check_id := "b", name := "b", status := Status.SKIPPED, severity := Severity.major }]).status
      = Status.PARTIALLY_MET ∧
    (_aggregate_section "4.1" "Entitlements"
        [{ check_id := "a", name := "a", status := Status.MET, severity := Severity.critical },
         { check_id := "b", name := "b", status := Status.NOT_MET, severity := Severity.critical }]).status
      = Status.NOT_MET :=
  ⟨(aggregate_section_matches_claim "4.1" "Entitlements" _ (by decide)).trans (by decide),
   (aggregate_section_matches_claim "4.1" "Entitlements" _ (by decide)).trans (by decide)⟩

/-- C2 counterexample: on the empty list of sections the code returns MET
(`any` is false, `all MET` is vacuously true) while the claim's rules, read
in order, make "all sections are NOT_MET" vacuously true and demand NOT_MET. -/
theorem aggregate_overall_claim_counterexample :
    _aggregate_overall [] = Status.MET ∧ overallStatusClaim [] = Status.NOT_MET := by
  constructor <;> rfl

/-- C2 amended: `_aggregate_overall` follows the claim's rules with the single
amendment that the "all sections NOT_MET → NOT_MET" rule additionally requires
a non-empty section list (on `[]` the code falls through to all-MET → MET). -/
theorem overall_chain_eq (A B P M N : Bool)
    (hAB : N = false → B = true → A = true)
    (hNA : N = true → A = false)
    (hNB : N = true → B = true)
    (hNM : N = true → M = true) :
    (if A then (if B then Status.NOT_MET else Status.PARTIALLY_MET)
     else if P then Status.PARTIALLY_MET
     else if M then Status.MET
     else Status.UNKNOWN) =
    (if A && !B then Status.PARTIALLY_MET
     else if !N && B then Status.NOT_MET
     else if P then Status.PARTIALLY_MET
     else if M then Status.MET
     else Status.UNKNOWN) := by
  cases A <;> cases B <;> cases P <;> cases M <;> cases N <;> simp_all

theorem aggregate_overall_matches_amended (sections : List SectionResult) :
    _aggregate_overall sections = overallStatusAmended sections := by
  have hAB : sections.isEmpty = false →
      sections.all (fun s => decide (s.status = Status.NOT_MET)) = true →
      sections.any (fun s => decide (s.status = Status.NOT_MET)) = true := by
    cases sections with
    | nil => intro h; simp at h
    | cons s rest =>
      intro _ hall
      rw [List.all_eq_true] at hall
      rw [List.any_eq_true]
      exact ⟨s, by simp, hall s (by simp)⟩
  have hNA : sections.isEmpty = true →
      sections.any (fun s => decide (s.status = Status.NOT_MET)) = false := by
    cases sections <;> simp
  have hNB : sections.isEmpty = true →
      sections.all (fun s => decide (s.status = Status.NOT_MET)) = true := by
    cases sections <;> simp
  have hNM : sections.isEmpty = true →
      sections.all (fun s => decide (s.status = Status.MET)) = true := by
    cases sections <;> simp
  exact overall_chain_eq _ _ _ _ _ hAB hNA hNB hNM

/-- C9: when both a standalone word-boundary "yes" token and a standalone
"no" token occur in the normalized input, `extract_yes_no` returns "yes"
(the yes-regex is tried first, regardless of token positions). -/
theorem extract_yes_no_prefers_yes (s : Str) (hne : s ≠ [])
    (hy : hasWordToken (pyLower (pyStrip s)) (lit "yes") = true)
    (_hn : hasWordToken (pyLower (pyStrip s)) (lit "no") = true) :
    extract_yes_no (some s) = some (lit "yes") := by
  simp [extract_yes_no, hne, hy]

/-- C9 witness: an input where the "no" token appears before the "yes" token. -/
theorem extract_yes_no_prefers_yes_witness :
    (lit "no for now, but yes overall") ≠ ([] : Str) ∧
    extract_yes_no (some (lit "no for now, but yes overall")) = some (lit "yes") :=
  ⟨by decide, extract_yes_no_prefers_yes _ (by decide) (by decide) (by decide)⟩

/-- C5 (code bug): `extract_yes_no` only recognizes the full words "yes"/"no"
at word boundaries; it does not accept a bare `y`/`n`, contradicting the
spec and the repository's own tests (`tests/test_extraction.py` asserts
`extract_yes_no("relevant? y") == "yes"` and `extract_yes_no("Y") == "yes"`).
The punctuation-tolerant examples that only involve full words do hold. -/
theorem extract_yes_no_code_behavior :
    extract_yes_no (some (lit "relevant? y")) = none ∧
    extract_yes_no (some (lit "Y")) = none ∧
    extract_yes_no (some (lit "Answer: No,")) = some (lit "no") ∧
    extract_yes_no (some (lit "   YES.")) = some (lit "yes") ∧
    extract_yes_no (some (lit "maybe")) = none := by
  refine ⟨?_, ?_, ?_, ?_, ?_⟩ <;> rfl

/-- C10: a description whose trimmed form is shorter than 8 characters is
rejected by `meaningful_description` regardless of the display name; every
placeholder token is itself shorter than 8 characters; consequently the
placeholder-token test is never the deciding condition — the function is
extensionally equal to the variant with that branch removed. -/
theorem meaningful_description_placeholder_dead :
    (∀ desc dn : Str, (pyStrip desc).length < 8 → meaningful_description desc dn = false) ∧
    (∀ p ∈ placeholder_tokens, p.length < 8) ∧
    (∀ desc dn : Str,
       meaningful_description desc dn = meaningful_description_no_placeholder desc dn) := by
  refine ⟨?_, by decide, ?_⟩
  · intro desc dn h
    by_cases h0 : (pyStrip desc).isEmpty <;> simp [meaningful_description, h0, h]
  · intro desc dn
    by_cases h0 : (pyStrip desc).isEmpty
    · simp [meaningful_description, meaningful_description_no_placeholder, h0]
    · by_cases h1 : (pyStrip desc).length < 8
      · simp [meaningful_description, meaningful_description_no_placeholder, h0, h1]
      · have hnp : pyStrip (pyStrip desc) ∉ placeholder_tokens := by
          rw [pyStrip_idem]
          intro hm
          have : (pyStrip desc).length < 8 := by
            simp only [placeholder_tokens, List.mem_cons, List.not_mem_nil,
              or_false] at hm
            rcases hm with h | h | h | h <;> rw [h] <;> decide
          exact h1 this
        simp [meaningful_description, meaningful_description_no_placeholder, h0, h1, hnp]

theorem pyInt_eq_floor (q : ℚ) (h : 0 ≤ q) : pyInt q = ⌊q⌋ := by simp [pyInt, h]

theorem strStartsWith_refl (s : String) : strStartsWith s s = true := by
  rw [strStartsWith, List.isPrefixOf_iff_prefix]

theorem strStartsWith_append_left (s t pre : String)
    (h : strStartsWith s pre = true) : strStartsWith (s ++ t) pre = true := by
  rw [strStartsWith, String.data_append, List.isPrefixOf_iff_prefix]
  rw [strStartsWith, List.isPrefixOf_iff_prefix] at h
  exact h.trans (List.prefix_append _ _)

/-- C3: the thresholding of spreadsheet findings. Zero failing rows is MET;
otherwise, with tolerance `max(abs_tol, floor(total * ratio_tol))`
(Python `int()` truncation coincides with floor for the non-negative
tolerances in scope), tolerant mode with `failing ≤ tolerance` is MET with an
"MVP warning" message, and strict mode, or an exceeded tolerance, is NOT_MET
with the failure count leading the message; `_simple_threshold_check` agrees
with `_excel_finding_check_threshold`. -/
theorem threshold_check_matches_spec (cid nm : String) (f : ExcelCheckFinding)
    (sev : Severity) (mvp : Bool) (ratio_tol : ℚ) (abs_tol : ℤ)
    (hr : 0 ≤ ratio_tol) :
    (f.failing_rows = 0 →
      (_excel_finding_check_threshold cid nm f sev mvp ratio_tol abs_tol).status
        = Status.MET) ∧
    (f.failing_rows ≠ 0 → mvp = true →
      (f.failing_rows : ℤ) ≤ max abs_tol ⌊(f.total_rows : ℚ) * ratio_tol⌋ →
      (_excel_finding_check_threshold cid nm f sev mvp ratio_tol abs_tol).status
        = Status.MET ∧
      strStartsWith
        (_excel_finding_check_threshold cid nm f sev mvp ratio_tol abs_tol).message
        "MVP warning" = true) ∧
    (f.failing_rows ≠ 0 →
      (mvp = false ∨ max abs_tol ⌊(f.total_rows : ℚ) * ratio_tol⌋ < (f.failing_rows : ℤ)) →
      (_excel_finding_check_threshold cid nm f sev mvp ratio_tol abs_tol).status
        = Status.NOT_MET ∧
      strStartsWith
        (_excel_finding_check_threshold cid nm f sev mvp ratio_tol abs_tol).message
        (toString (f.failing_rows : ℤ) ++ " of ") = true) ∧
    (_simple_threshold_check cid nm f.failing_rows f.total_rows sev mvp ratio_tol abs_tol
      = _excel_finding_check_threshold cid nm f sev mvp ratio_tol abs_tol) := by
  have hpy : pyInt ((f.total_rows : ℚ) * ratio_tol) = ⌊(f.total_rows : ℚ) * ratio_tol⌋ :=
    pyInt_eq_floor _ (mul_nonneg (by positivity) hr)
  refine ⟨?_, ?_, ?_, rfl⟩
  · intro h0
    have h0z : (f.failing_rows : ℤ) = 0 := by exact_mod_cast h0
    simp only [_excel_finding_check_threshold]
    rw [if_pos h0z]
  · intro h0 hmvp hle
    have h0z : ¬ ((f.failing_rows : ℤ) = 0) := by exact_mod_cast h0
    rw [← hpy] at hle
    have hc : (mvp && decide ((f.failing_rows : ℤ)
        ≤ max abs_tol (pyInt ((f.total_rows : ℚ) * ratio_tol)))) = true := by
      rw [hmvp, Bool.true_and, decide_eq_true_eq]
      exact hle
    simp only [_excel_finding_check_threshold, Int.cast_natCast]
    rw [if_neg h0z, if_pos hc]
    exact ⟨rfl,
      strStartsWith_append_left _ _ _ (strStartsWith_append_left _ _ _
        (strStartsWith_append_left _ _ _ (strStartsWith_append_left _ _ _
          (strStartsWith_append_left _ _ _ (strStartsWith_append_left _ _ _
            (by decide))))))⟩
  · intro h0 hcase
    have h0z : ¬ ((f.failing_rows : ℤ) = 0) := by exact_mod_cast h0
    have hcond : ¬ ((mvp && decide ((f.failing_rows : ℤ)
        ≤ max abs_tol (pyInt ((f.total_rows : ℚ) * ratio_tol)))) = true) := by
      rcases hcase with h | h
      · simp [h]
      · rw [← hpy] at h
        simp [not_le.mpr h]
    simp only [_excel_finding_check_threshold, Int.cast_natCast]
    rw [if_neg h0z, if_neg hcond]
    exact ⟨rfl,
      strStartsWith_append_left _ _ _ (strStartsWith_append_left _ _ _
        (strStartsWith_refl _))⟩

/-- C3 witness: the spec's worked example, `total_rows=100`, `failing_rows=8`,
`ratio_tolerance=0.10`, `absolute_tolerance=5`: tolerance 10, so tolerant
mode yields MET with an MVP warning and strict mode yields NOT_MET. -/
theorem threshold_check_matches_spec_witness :
    (0 : ℚ) ≤ 1/10 ∧
    max (5 : ℤ) ⌊(100 : ℚ) * (1/10)⌋ = 10 ∧
    (_excel_finding_check_threshold "S4.1-EX-01" "required master data filled"
        ⟨100, 8, []⟩ Severity.major true (1/10) 5).status = Status.MET ∧
    strStartsWith (_excel_finding_check_threshold "S4.1-EX-01" "required master data filled"
        ⟨100, 8, []⟩ Severity.major true (1/10) 5).message "MVP warning" = true ∧
    (_excel_finding_check_threshold "S4.1-EX-01" "required master data filled"
        ⟨100, 8, []⟩ Severity.major false (1/10) 5).status = Status.NOT_MET := by
  refine ⟨by norm_num, by norm_num, ?_, ?_, ?_⟩
  · exact ((threshold_check_matches_spec "S4.1-EX-01" "required master data filled"
      ⟨100, 8, []⟩ Severity.major true (1/10) 5 (by norm_num)).2.1
      (by decide) rfl (by norm_num)).1
  · exact ((threshold_check_matches_spec "S4.1-EX-01" "required master data filled"
      ⟨100, 8, []⟩ Severity.major true (1/10) 5 (by norm_num)).2.1
      (by decide) rfl (by norm_num)).2
  · exact ((threshold_check_matches_spec "S4.1-EX-01" "required master data filled"
      ⟨100, 8, []⟩ Severity.major false (1/10) 5 (by norm_num)).2.2.1
      (by decide) (Or.inl rfl)).1

/-- C6: the OCR overlay substitutes OCR-derived lines for a page only when
the base page's trimmed text is empty and the OCR text for that page is
non-empty; in every other case (non-empty native text, or empty/absent OCR
text) it returns the base lines unchanged. -/
theorem overlay_preserves_native_text (base : PdfDoc) (ocr : List (Nat × Str)) (i : Nat) :
    (pyStrip (joinNL (page_lines base i)) ≠ [] →
       overlay_page_lines base ocr i = page_lines base i) ∧
    (pyStrip ((ocr.lookup i).getD []) = [] →
       overlay_page_lines base ocr i = page_lines base i) ∧
    (pyStrip (joinNL (page_lines base i)) = [] →
     pyStrip ((ocr.lookup i).getD []) ≠ [] →
       overlay_page_lines base ocr i =
         (pySplitlines (pyStrip ((ocr.lookup i).getD []))).filter
           (fun ln => !(pyStrip ln).isEmpty)) := by
  refine ⟨?_, ?_, ?_⟩
  · intro h
    have hb : (pyStrip (joinNL (page_lines base i))).isEmpty = false := by
      simpa [List.isEmpty_iff] using h
    simp [overlay_page_lines, hb]
  · intro h
    have ho : (pyStrip ((ocr.lookup i).getD [])).isEmpty = true := by
      simpa [List.isEmpty_iff] using h
    simp [overlay_page_lines, ho]
  · intro hb ho
    have hb' : (pyStrip (joinNL (page_lines base i))).isEmpty = true := by
      simpa [List.isEmpty_iff] using hb
    have ho' : (pyStrip ((ocr.lookup i).getD [])).isEmpty = false := by
      simpa [List.isEmpty_iff] using ho
    simp [overlay_page_lines, hb', ho']

/-- C6 witness: a page with usable native text keeps its native lines even
though OCR text exists for it; a blank page with OCR text takes the
non-blank OCR-derived lines. -/
theorem overlay_preserves_native_text_witness :
    pyStrip (joinNL (page_lines ⟨[lit "Native text"]⟩ 0)) ≠ [] ∧
    overlay_page_lines ⟨[lit "Native text"]⟩ [(0, lit "OCR")] 0
      = page_lines ⟨[lit "Native text"]⟩ 0 ∧
    overlay_page_lines ⟨[lit "  \x0d\n "]⟩ [(0, lit "Hello\n\nWorld ")] 0
      = [lit "Hello", lit "World"] :=
  ⟨by decide,
   (overlay_preserves_native_text ⟨[lit "Native text"]⟩ [(0, lit "OCR")] 0).1 (by decide),
   by decide⟩

theorem not_non_empty_cell (c : Cell) : (!non_empty_cell c) = cell_empty_spec c := by
  cases c <;> simp [non_empty_cell, cell_empty_spec]

theorem row_fail_eq (required : List Str) (r : Row) :
    (!required.all (fun c => non_empty_cell (dfGet r c))) =
      required.any (fun c => cell_empty_spec (dfGet r c)) := by
  rw [← any_not_eq_not_all]
  simp only [not_non_empty_cell]

theorem mem_commaJoin_quoted (c : Str) (l : List Str) (h : c ∈ l) :
    ∃ pre post, commaJoin (l.map quoteItem) = pre ++ c ++ post := by
  induction l with
  | nil => cases h
  | cons a t ih =>
    rcases List.mem_cons.mp h with h | h
    · subst h
      cases t with
      | nil =>
        refine ⟨[sq], [sq], ?_⟩
        simp [commaJoin, quoteItem]
      | cons b t2 =>
        refine ⟨[sq], [sq] ++ lit ", " ++ commaJoin ((b :: t2).map quoteItem), ?_⟩
        simp [commaJoin, quoteItem]
    · have hne : t ≠ [] := List.ne_nil_of_mem h
      rcases ih h with ⟨pre, post, hcj⟩
      cases t with
      | nil => exact absurd rfl hne
      | cons b t2 =>
        refine ⟨quoteItem a ++ lit ", " ++ pre, post, ?_⟩
        simp only [List.map_cons, commaJoin] at hcj ⊢
        rw [hcj]
        simp [List.append_assoc]

theorem crcne_total (df : DataFrame) (required : List Str) (id_col : Option Str)
    (max_samples : Nat) :
    (check_required_columns_non_empty df required id_col max_samples).total_rows
      = df.rows.length := by
  simp only [check_required_columns_non_empty]
  by_cases h : (!(required.filter (fun c => !(df.cols.contains c))).isEmpty) = true
  · rw [if_pos h]
  · rw [if_neg h]

theorem crcne_missing_eq (df : DataFrame) (required : List Str) (id_col : Option Str)
    (max_samples : Nat)
    (h : required.filter (fun c => !(df.cols.contains c)) ≠ []) :
    (check_required_columns_non_empty df required id_col max_samples).failing_rows
       = df.rows.length ∧
    (check_required_columns_non_empty df required id_col max_samples).sample_rows
       = [[(lit "error", some (lit "Missing columns: " ++
           pyReprStrList (required.filter (fun c => !(df.cols.contains c)))))]] := by
  have hb : (!(required.filter (fun c => !(df.cols.contains c))).isEmpty) = true := by
    cases hfil : required.filter (fun c => !(df.cols.contains c)) with
    | nil => exact absurd hfil h
    | cons x xs => rfl
  simp only [check_required_columns_non_empty]
  rw [if_pos hb]
  exact ⟨rfl, rfl⟩

theorem crcne_present_failing (df : DataFrame) (required : List Str)
    (id_col : Option Str) (max_samples : Nat)
    (h : required.filter (fun c => !(df.cols.contains c)) = []) :
    (check_required_columns_non_empty df required id_col max_samples).failing_rows
      = (df.rows.filter
          (fun r => !required.all (fun c => non_empty_cell (dfGet r c)))).length := by
  have hbf : (!(required.filter (fun c => !(df.cols.contains c))).isEmpty) = false := by
    rw [h]; rfl
  simp only [check_required_columns_non_empty]
  rw [if_neg (fun hc => Bool.false_ne_true (hbf ▸ hc))]

/-- C4: with all required columns present, a row fails exactly when some
required column's trimmed string form is empty (null/NaN/blank count as
empty); with any required column entirely absent, the finding reports all
rows as failing regardless of content and its sample's error message names
each missing column. -/
theorem required_columns_check_spec (df : DataFrame) (required : List Str)
    (id_col : Option Str) (max_samples : Nat) (_hne : required ≠ []) :
    (check_required_columns_non_empty df required id_col max_samples).total_rows
       = df.rows.length ∧
    ((∀ c ∈ required, c ∈ df.cols) →
      (check_required_columns_non_empty df required id_col max_samples).failing_rows =
        (df.rows.filter
          (fun r => required.any (fun c => cell_empty_spec (dfGet r c)))).length) ∧
    ((∃ c ∈ required, c ∉ df.cols) →
      (check_required_columns_non_empty df required id_col max_samples).failing_rows
         = df.rows.length ∧
      ∀ c ∈ required, c ∉ df.cols →
        ∃ pre post,
          (check_required_columns_non_empty df required id_col max_samples).sample_rows
            = [[(lit "error", some (pre ++ c ++ post))]]) := by
  have hcont : ∀ c : Str, (!df.cols.contains c) = true ↔ c ∉ df.cols := by
    intro c
    rw [Bool.not_eq_true', ← Bool.not_eq_true, List.elem_iff]
  refine ⟨crcne_total df required id_col max_samples, ?_, ?_⟩
  · intro hall
    have hm : required.filter (fun c => !(df.cols.contains c)) = [] := by
      rw [List.filter_eq_nil_iff]
      intro c hc
      intro hb
      exact (hcont c).mp hb (hall c hc)
    rw [crcne_present_failing df required id_col max_samples hm]
    simp only [row_fail_eq]
  · intro ⟨c0, hc0, hnc0⟩
    have hm : required.filter (fun c => !(df.cols.contains c)) ≠ [] := by
      intro hnil
      have : c0 ∈ required.filter (fun c => !(df.cols.contains c)) :=
        List.mem_filter.mpr ⟨hc0, (hcont c0).mpr hnc0⟩
      rw [hnil] at this
      cases this
    refine ⟨(crcne_missing_eq df required id_col max_samples hm).1, ?_⟩
    intro c hc hnc
    have hcm : c ∈ required.filter (fun c => !(df.cols.contains c)) :=
      List.mem_filter.mpr ⟨hc, (hcont c).mpr hnc⟩
    rcases mem_commaJoin_quoted c _ hcm with ⟨pre, post, hcj⟩
    refine ⟨lit "Missing columns: " ++ (lit "[" ++ pre), post ++ lit "]", ?_⟩
    rw [(crcne_missing_eq df required id_col max_samples hm).2]
    simp only [pyReprStrList, hcj]
    simp [List.append_assoc]

/-- C4 witness: the spec's example — a two-row table missing the column
"Tier Level" entirely reports every row as failing although the present
column is fully populated. -/
theorem required_columns_check_spec_witness :
    ([lit "Display name", lit "Tier Level"] : List Str) ≠ [] ∧
    (check_required_columns_non_empty
        ⟨[lit "Display name"],
         [[(lit "Display name", some (lit "Admin"))],
          [(lit "Display name", some (lit "User"))]]⟩
        [lit "Display name", lit "Tier Level"] none 5).failing_rows = 2 :=
  ⟨by decide,
   ((required_columns_check_spec
      ⟨[lit "Display name"],
       [[(lit "Display name", some (lit "Admin"))],
        [(lit "Display name", some (lit "User"))]]⟩
      [lit "Display name", lit "Tier Level"] none 5 (by decide)).2.2
      ⟨lit "Tier Level", by decide, by decide⟩).1⟩

/-- C10 witness: the placeholder "tbd" is already rejected by the length rule. -/
theorem meaningful_description_placeholder_dead_witness :
    meaningful_description (lit "tbd") [] = false ∧ (pyStrip (lit "tbd")).length < 8 :=
  ⟨meaningful_description_placeholder_dead.1 (lit "tbd") [] (by decide), by decide⟩

theorem window7_skip (labels_l : List Str) (raw : Str) (rest : List Str)
    (h : pyStrip raw = [] ∨ labelsMatch labels_l (pyLower (pyStrip raw)) = true) :
    window7 labels_l (raw :: rest) = window7 labels_l rest := by
  rcases h with h | h
  · simp [window7, h]
  · by_cases h0 : (pyStrip raw).isEmpty
    · simp [window7, h0]
    · simp [window7, h0, h]

theorem window7_hit (labels_l : List Str) (raw : Str) (rest : List Str)
    (hv : pyStrip raw ≠ [])
    (hm : labelsMatch labels_l (pyLower (pyStrip raw)) = false) :
    window7 labels_l (raw :: rest) = some (pyStrip raw) := by
  have h0 : (pyStrip raw).isEmpty = false := by
    cases hp : pyStrip raw with
    | nil => exact absurd hp hv
    | cons a b => rfl
  simp [window7, h0, hm]

theorem window7_first (labels_l : List Str) (wpre : List Str) (w : Str)
    (wrest : List Str)
    (hpre : ∀ l ∈ wpre, pyStrip l = [] ∨ labelsMatch labels_l (pyLower (pyStrip l)) = true)
    (hv : pyStrip w ≠ [])
    (hm : labelsMatch labels_l (pyLower (pyStrip w)) = false) :
    window7 labels_l (wpre ++ w :: wrest) = some (pyStrip w) := by
  induction wpre with
  | nil => exact window7_hit labels_l w wrest hv hm
  | cons a t ih =>
    rw [List.cons_append, window7_skip labels_l a _ (hpre a (by simp))]
    exact ih (fun l hl => hpre l (by simp [hl]))

theorem ffvalGo_skip (labels_l : List Str) (raw : Str) (rest : List Str)
    (h : pyStrip raw = [] ∨ labelsMatch labels_l (pyLower (pyStrip raw)) = false) :
    ffvalGo labels_l (raw :: rest) = ffvalGo labels_l rest := by
  rcases h with h | h
  · simp [ffvalGo, h]
  · by_cases h0 : (pyStrip raw).isEmpty
    · simp [ffvalGo, h0]
    · simp [ffvalGo, h0, h]

theorem ffvalGo_pre_skip (labels_l : List Str) (pre lines : List Str)
    (hpre : ∀ l ∈ pre, pyStrip l = [] ∨ labelsMatch labels_l (pyLower (pyStrip l)) = false) :
    ffvalGo labels_l (pre ++ lines) = ffvalGo labels_l lines := by
  induction pre with
  | nil => rfl
  | cons a t ih =>
    rw [List.cons_append, ffvalGo_skip labels_l a _ (hpre a (by simp))]
    exact ih (fun l hl => hpre l (by simp [hl]))

theorem ffvalGo_at_match (labels_l : List Str) (raw : Str) (rest : List Str)
    (hs : pyStrip raw ≠ [])
    (hm : labelsMatch labels_l (pyLower (pyStrip raw)) = true) :
    ffvalGo labels_l (raw :: rest) =
      (match afterColon (pyStrip raw) with
       | some r =>
         if !(pyStrip r).isEmpty then some (pyStrip r)
         else
           (match window7 labels_l (rest.take 7) with
            | some v => some v
            | none => ffvalGo labels_l rest)
       | none =>
         (match window7 labels_l (rest.take 7) with
          | some v => some v
          | none => ffvalGo labels_l rest)) := by
  have h0 : (pyStrip raw).isEmpty = false := by
    cases hp : pyStrip raw with
    | nil => exact absurd hp hs
    | cons a b => rfl
  simp [ffvalGo, h0, hm]

/-- C7 counterexample: over the single line "CMS Product ID 1513344" the
remainder after stripping the label is the non-empty "1513344", so the claim
says label-anchored extraction returns it; but `find_first_value_after_labels`
only splits at a colon for its same-line rule, and returns none here. -/
theorem label_extraction_claim_counterexample :
    find_first_value_after_labels [lit "CMS Product ID 1513344"] [lit "CMS Product ID"]
      = none ∧
    (remainder_after_label (lit "CMS Product ID")
        (lit "CMS Product ID 1513344")).map pyStrip = some (lit "1513344") := by
  exact ⟨rfl, rfl⟩

/-- C7 amended: on the first non-blank line containing a label (earlier lines
blank or label-free), the same-line rule returns the trimmed text after the
line's first colon when that is non-empty (not the remainder after the label);
otherwise the forward window over the next ≤ 7 lines returns the first
non-blank line that does not contain a label; the spec's example value
"1513344" is produced by the typed regex extractor `_extract_cms_product_id`,
not by the label-anchored function. -/
theorem find_first_value_amended (labels : List Str) (pre : List Str) (raw : Str)
    (rest : List Str)
    (hpre : ∀ l ∈ pre, pyStrip l = [] ∨
        labelsMatch (labels_norm labels) (pyLower (pyStrip l)) = false)
    (hs : pyStrip raw ≠ [])
    (hm : labelsMatch (labels_norm labels) (pyLower (pyStrip raw)) = true) :
    (∀ r, afterColon (pyStrip raw) = some r → pyStrip r ≠ [] →
        find_first_value_after_labels (pre ++ raw :: rest) labels
          = some (pyStrip r)) ∧
    ((afterColon (pyStrip raw) = none ∨
        ∃ r, afterColon (pyStrip raw) = some r ∧ pyStrip r = []) →
      ∀ (wpre : List Str) (w : Str) (wrest : List Str),
        rest.take 7 = wpre ++ w :: wrest →
        (∀ l ∈ wpre, pyStrip l = [] ∨
            labelsMatch (labels_norm labels) (pyLower (pyStrip l)) = true) →
        pyStrip w ≠ [] →
        labelsMatch (labels_norm labels) (pyLower (pyStrip w)) = false →
        find_first_value_after_labels (pre ++ raw :: rest) labels
          = some (pyStrip w)) ∧
    _extract_cms_product_id (lit "CMS Product ID 1513344") = some (lit "1513344") := by
  have hne : (pre ++ raw :: rest).isEmpty = false := by
    cases pre <;> rfl
  have hbody : find_first_value_after_labels (pre ++ raw :: rest) labels
      = ffvalGo (labels_norm labels) (raw :: rest) := by
    simp only [find_first_value_after_labels]
    rw [if_neg (fun hc => Bool.false_ne_true (hne ▸ hc))]
    exact ffvalGo_pre_skip _ pre _ hpre
  refine ⟨?_, ?_, rfl⟩
  · intro r har hr
    have h0 : (pyStrip r).isEmpty = false := by
      cases hp : pyStrip r with
      | nil => exact absurd hp hr
      | cons a b => rfl
    rw [hbody, ffvalGo_at_match _ _ _ hs hm]
    simp [har, h0]
  · intro hcase wpre w wrest htake hwpre hwv hwm
    have hw : window7 (labels_norm labels) (rest.take 7) = some (pyStrip w) := by
      rw [htake]
      exact window7_first _ _ _ _ hwpre hwv hwm
    rw [hbody, ffvalGo_at_match _ _ _ hs hm]
    rcases hcase with hnone | ⟨r, har, hrS⟩
    · simp [hnone, hw]
    · have h0 : (pyStrip r).isEmpty = true := by rw [hrS]; rfl
      simp [har, h0, hw]

/-- C7 witness: the colon layout "IT Asset ID: AID551" on the first line
yields the after-colon value via the amended same-line rule. -/
theorem find_first_value_amended_witness :
    pyStrip (lit "IT Asset ID: AID551") ≠ [] ∧
    find_first_value_after_labels [lit "IT Asset ID: AID551"] [lit "IT Asset ID"]
      = some (lit "AID551") :=
  ⟨by decide,
   (find_first_value_amended [lit "IT Asset ID"] [] (lit "IT Asset ID: AID551") []
      (fun l hl => absurd hl (List.not_mem_nil l)) (by decide) (by decide)).1
     (lit "AID551") (by decide) (by decide)⟩

/-- C8 counterexample: when every per-page render/recognize step raises, the
inner `try` swallows the failure into empty page text: the function returns
`ocr_succeeded=false` but records no error string, contrary to the claim's
"metadata recording the failure (ocr_succeeded=false and an error string)". -/
theorem ocr_failure_claim_counterexample :
    (ocr_pdf_pages_best_effort ocrEnvPageFail 1 none).1 = [(0, [])] ∧
    (ocr_pdf_pages_best_effort ocrEnvPageFail 1 none).2.ocr_succeeded = false ∧
    (ocr_pdf_pages_best_effort ocrEnvPageFail 1 none).2.error = none :=
  ⟨rfl, rfl, rfl⟩

/-- C8 amended: with the effectful steps restated as explicit results, the
OCR entry point always returns (never raises): a missing dependency or a
failed document open returns an empty page map with `ocr_succeeded=false`
and an error string; per-page rendering/recognition failures yield empty
text for those pages with `ocr_succeeded=false` but no error string; and
whenever no OCR text was produced the calling validation keeps the native
text view. -/
theorem ocr_best_effort_amended (env : OcrEnv) (max_pages : Nat)
    (pages : Option (List Nat)) (base : PdfDoc)
    (hcache : ∀ m, env.cacheRead ≠ some (Except.ok m)) :
    (∀ e, env.depsError = some e →
      ocr_pdf_pages_best_effort env max_pages pages =
        ([], { ocr_available := false, ocr_attempted := true, ocr_cache_hit := false,
               ocr_succeeded := false, ocr_text_chars := 0, ocr_pages := 0,
               error := some (lit "ocr_unavailable: " ++ e) })) ∧
    (∀ e, env.depsError = none → env.openDoc = Except.error e →
      ocr_pdf_pages_best_effort env max_pages pages =
        ([], { ocr_available := true, ocr_attempted := true, ocr_cache_hit := false,
               ocr_succeeded := false, ocr_text_chars := 0, ocr_pages := 0,
               error := some (lit "ocr_error: " ++ e) })) ∧
    (∀ n, env.depsError = none → env.openDoc = Except.ok n →
      (∀ i, ∃ msg, env.pageOcr i = Except.error msg) →
      (∀ p ∈ (ocr_pdf_pages_best_effort env max_pages pages).1, p.2 = ([] : Str)) ∧
      (ocr_pdf_pages_best_effort env max_pages pages).2.ocr_succeeded = false ∧
      (ocr_pdf_pages_best_effort env max_pages pages).2.error = none) ∧
    (∀ m : List (Nat × Str), totalChars m = 0 →
      ∀ i, validate_doc_after_ocr base m i = page_lines base i) := by
  refine ⟨?_, ?_, ?_, ?_⟩
  · intro e he
    rcases hcrv : env.cacheRead with _ | x
    · simp [ocr_pdf_pages_best_effort, hcrv, he]
    · cases x with
      | error e2 => simp [ocr_pdf_pages_best_effort, hcrv, he]
      | ok m => exact absurd hcrv (hcache m)
  · intro e hdeps hopen
    rcases hcrv : env.cacheRead with _ | x
    · simp [ocr_pdf_pages_best_effort, hcrv, hdeps, hopen]
    · cases x with
      | error e2 => simp [ocr_pdf_pages_best_effort, hcrv, hdeps, hopen]
      | ok m => exact absurd hcrv (hcache m)
  · intro n hdeps hopen hfail
    have hstep : ocr_pdf_pages_best_effort env max_pages pages =
        ((ocrTargetPages pages max_pages n).map (ocrPageEntry env),
         { ocr_available := true, ocr_attempted := true, ocr_cache_hit := false,
           ocr_succeeded :=
             decide (0 < totalChars ((ocrTargetPages pages max_pages n).map (ocrPageEntry env))),
           ocr_text_chars := totalChars ((ocrTargetPages pages max_pages n).map (ocrPageEntry env)),
           ocr_pages := (ocrTargetPages pages max_pages n).length,
           error := none }) := by
      rcases hcrv : env.cacheRead with _ | x
      · simp [ocr_pdf_pages_best_effort, hcrv, hdeps, hopen]
      · cases x with
        | error e2 => simp [ocr_pdf_pages_best_effort, hcrv, hdeps, hopen]
        | ok m => exact absurd hcrv (hcache m)
    have hchars : totalChars ((ocrTargetPages pages max_pages n).map (ocrPageEntry env)) = 0 := by
      rw [totalChars, List.map_map, List.sum_eq_zero]
      intro x hx
      rcases List.mem_map.mp hx with ⟨i, _, rfl⟩
      rcases hfail i with ⟨msg, hmsg⟩
      simp [ocrPageEntry, hmsg]
    refine ⟨?_, ?_, ?_⟩
    · intro p hp
      rw [hstep] at hp
      rcases List.mem_map.mp hp with ⟨i, _, rfl⟩
      rcases hfail i with ⟨msg, hmsg⟩
      simp [ocrPageEntry, hmsg]
    · rw [hstep]
      simp [hchars]
    · rw [hstep]
  · intro m h0 i
    simp [validate_doc_after_ocr, h0]

/-- C8 witness: a cold cache with a failing dependency import returns the
empty map plus failure metadata with an error string. -/
theorem ocr_best_effort_amended_witness :
    (∀ m, ocrEnvNoDeps.cacheRead ≠ some (Except.ok m)) ∧
    ocr_pdf_pages_best_effort ocrEnvNoDeps 2 none =
      ([], { ocr_available := false, ocr_attempted := true, ocr_cache_hit := false,
             ocr_succeeded := false, ocr_text_chars := 0, ocr_pages := 0,
             error := some (lit "ocr_unavailable: " ++ lit "ModuleNotFoundError") }) :=
  ⟨fun _ h => Option.noConfusion h,
   (ocr_best_effort_amended ocrEnvNoDeps 2 none ⟨[]⟩
      (fun _ h => Option.noConfusion h)).1 (lit "ModuleNotFoundError") rfl⟩

end Daisy
